import Mathlib

/-!
Shallow embedding of the ChatKit session relay backend (`api/index.py`).

The application exposes a single `POST /chatkit/session` endpoint.  The
request body is validated against the pydantic model `SessionRequest`
(`deviceId : str`); the handler builds an OpenAI client from the
`OPENAI_API_KEY` environment variable, calls the provider's chatkit
session-creation API with a fixed workflow identifier and the caller's
`deviceId`, and returns `{"client_secret": ...}`.

The embedding is pure: the process environment is a function from variable
names to optional values, the external provider is a function from the
outbound call to a result, and each run additionally returns the ordered
list of observable effects (environment reads and provider calls) so that
claims about absent or repeated outbound calls can be stated.
-/

/-- JSON values, the shape of request and response bodies. -/
inductive Json where
  | null : Json
  | bool : Bool → Json
  | num : Int → Json
  | str : String → Json
  | arr : List Json → Json
  | obj : List (String × Json) → Json

/-- First-match lookup of a key among the fields of a JSON object. -/
def lookupField : List (String × Json) → String → Option Json
  | [], _ => none
  | (k, v) :: rest, key => if k = key then some v else lookupField rest key

/-- Lookup of a field in a JSON value; anything other than an object has no
fields. -/
def jsonLookup : Json → String → Option Json
  | Json.obj fields, key => lookupField fields key
  | _, _ => none

/-- Schema for requests to create a ChatKit session (`class SessionRequest`,
`deviceId: str`). -/
structure SessionRequest where
  deviceId : String
deriving DecidableEq

/-- Request-body validation performed by FastAPI/pydantic before the handler
runs: the body must be a JSON object with a `deviceId` field whose value is a
string; a missing field or a non-string value fails validation. -/
def parseSessionRequest (body : Json) : Except String SessionRequest :=
  match jsonLookup body "deviceId" with
  | some (Json.str s) => Except.ok { deviceId := s }
  | some _ => Except.error "deviceId: Input should be a valid string"
  | none => Except.error "deviceId: Field required"

/-- The process environment: variable names to values, `none` when unset. -/
def Env : Type := String → Option String

/-- `os.getenv`. -/
def os_getenv (env : Env) (name : String) : Option String := env name

/-- The OpenAI client object, holding the API key it was constructed with. -/
structure OpenAI where
  api_key : String
deriving DecidableEq

/-- Error message raised by `get_openai_client` when the key is missing. -/
def missingKeyMsg : String :=
  "OPENAI_API_KEY environment variable is not set. Set it before starting the server."

/-- `get_openai_client`: instantiate an OpenAI client using the API key from
the environment.  Python's `if not api_key` is a falsiness check: it raises
`RuntimeError` both when the variable is unset (`None`) and when it is the
empty string. -/
def get_openai_client (env : Env) : Except String OpenAI :=
  match os_getenv env "OPENAI_API_KEY" with
  | none => Except.error missingKeyMsg
  | some api_key =>
    if api_key = "" then Except.error missingKeyMsg
    else Except.ok { api_key := api_key }

/-- The `"workflow": {"id": ...}` sub-object of the session-creation params. -/
structure Workflow where
  id : String
deriving DecidableEq

/-- The params dict passed to `client.chatkit.sessions.create`. -/
structure SessionCreateParams where
  workflow : Workflow
  user : String
deriving DecidableEq

/-- One outbound provider call: the credential the client was built with and
the session-creation params sent. -/
structure ProviderCall where
  api_key : String
  params : SessionCreateParams
deriving DecidableEq

/-- The provider's session object.  The handler reads only `client_secret`;
any other fields of the provider response are carried opaquely and ignored. -/
structure Session where
  client_secret : String
  other_fields : List (String × String)
deriving DecidableEq

/-- Observable effects of handling one request, in order. -/
inductive Event where
  | envRead : String → Event
  | providerCall : ProviderCall → Event
deriving DecidableEq

/-- The external provider: maps an outbound call to a session or a raised
error. -/
def Provider : Type := ProviderCall → Except String Session

/-- The fixed workflow identifier hard-coded in the handler. -/
def workflow_id : String := "wf_692605e459d481909eb01292c1ae28e307b2a2a9ee1d324"

/-- The handler `create_chatkit_session`: build the client (reading the
environment), call the provider's session-creation API with the fixed
workflow identifier and the caller's `deviceId`, and return
`{"client_secret": session.client_secret}`.  An exception — the
`RuntimeError` from `get_openai_client` or an error raised by the provider
call — propagates out of the handler as `Except.error`.  The second
component is the trace of observable effects. -/
def create_chatkit_session (env : Env) (provider : Provider) (req : SessionRequest) :
    Except String Json × List Event :=
  match get_openai_client env with
  | Except.error e => (Except.error e, [Event.envRead "OPENAI_API_KEY"])
  | Except.ok client =>
    let call : ProviderCall :=
      { api_key := client.api_key
        params := { workflow := { id := workflow_id }, user := req.deviceId } }
    match provider call with
    | Except.error e =>
      (Except.error e, [Event.envRead "OPENAI_API_KEY", Event.providerCall call])
    | Except.ok session =>
      (Except.ok (Json.obj [("client_secret", Json.str session.client_secret)]),
       [Event.envRead "OPENAI_API_KEY", Event.providerCall call])

/-- HTTP outcomes: a 200 with a JSON body, a 4xx-equivalent client error
(validation failure), or a 5xx-equivalent server error (an exception that
escaped the handler). -/
inductive HttpResponse where
  | ok : Json → HttpResponse
  | clientError : String → HttpResponse
  | serverError : String → HttpResponse

/-- The FastAPI request pipeline for `POST /chatkit/session`: request-body
validation runs first, and a failure is reported as a client error with the
handler never running; an exception escaping the handler is reported as a
server error. -/
def app_post_chatkit_session (env : Env) (provider : Provider) (body : Json) :
    HttpResponse × List Event :=
  match parseSessionRequest body with
  | Except.error e => (HttpResponse.clientError e, [])
  | Except.ok req =>
    match create_chatkit_session env provider req with
    | (Except.error e, evs) => (HttpResponse.serverError e, evs)
    | (Except.ok j, evs) => (HttpResponse.ok j, evs)

/-- Test for a 200 response. -/
def isOk : HttpResponse → Bool
  | HttpResponse.ok _ => true
  | _ => false

/-- Test for a client-side (4xx-equivalent) response. -/
def isClientError : HttpResponse → Bool
  | HttpResponse.clientError _ => true
  | _ => false

/-- Test for a server-side (5xx-equivalent) response. -/
def isServerError : HttpResponse → Bool
  | HttpResponse.serverError _ => true
  | _ => false

/-- Whether the response body carries a `client_secret` field. -/
def responseHasClientSecret : HttpResponse → Bool
  | HttpResponse.ok body => (jsonLookup body "client_secret").isSome
  | _ => false

/-- The outbound provider calls recorded in a trace, in order. -/
def providerCalls (evs : List Event) : List ProviderCall :=
  evs.filterMap fun e =>
    match e with
    | Event.providerCall c => some c
    | _ => none

/-- The environment-variable reads recorded in a trace, in order. -/
def envReads (evs : List Event) : List String :=
  evs.filterMap fun e =>
    match e with
    | Event.envRead n => some n
    | _ => none

/-! ## Branch characterizations of the pipeline -/

/-- Validation failure: the response is a client error and the trace is
empty. -/
theorem app_parse_error (env : Env) (provider : Provider) (body : Json) (e : String)
    (hparse : parseSessionRequest body = Except.error e) :
    app_post_chatkit_session env provider body = (HttpResponse.clientError e, []) := by
  simp [app_post_chatkit_session, hparse]

/-- Missing client: the handler raises before any provider call; the response
is a server error and the trace holds the single environment read. -/
theorem app_client_error (env : Env) (provider : Provider) (body : Json)
    (req : SessionRequest) (e : String)
    (hparse : parseSessionRequest body = Except.ok req)
    (hc : get_openai_client env = Except.error e) :
    app_post_chatkit_session env provider body =
      (HttpResponse.serverError e, [Event.envRead "OPENAI_API_KEY"]) := by
  simp [app_post_chatkit_session, hparse, create_chatkit_session, hc]

/-- The outbound call the handler builds from a client holding key `k` for a
request with device identifier `d`: the fixed workflow identifier together
with `user = d`. -/
def sessionCall (k d : String) : ProviderCall :=
  { api_key := k
    params := { workflow := { id := workflow_id }, user := d } }

/-- Provider failure: the error propagates as a server error; the trace holds
the environment read and the single provider call. -/
theorem app_provider_error (env : Env) (provider : Provider) (body : Json)
    (req : SessionRequest) (k e : String)
    (hparse : parseSessionRequest body = Except.ok req)
    (hc : get_openai_client env = Except.ok { api_key := k })
    (hp : provider (sessionCall k req.deviceId) = Except.error e) :
    app_post_chatkit_session env provider body =
      (HttpResponse.serverError e,
       [Event.envRead "OPENAI_API_KEY",
        Event.providerCall (sessionCall k req.deviceId)]) := by
  simp only [sessionCall] at hp
  simp [app_post_chatkit_session, hparse, create_chatkit_session, hc, hp,
    sessionCall]

/-- Success: the response is `{"client_secret": s}` and the trace holds the
environment read and the single provider call. -/
theorem app_success (env : Env) (provider : Provider) (body : Json)
    (req : SessionRequest) (k s : String) (extra : List (String × String))
    (hparse : parseSessionRequest body = Except.ok req)
    (hc : get_openai_client env = Except.ok { api_key := k })
    (hp : provider (sessionCall k req.deviceId)
          = Except.ok { client_secret := s, other_fields := extra }) :
    app_post_chatkit_session env provider body =
      (HttpResponse.ok (Json.obj [("client_secret", Json.str s)]),
       [Event.envRead "OPENAI_API_KEY",
        Event.providerCall (sessionCall k req.deviceId)]) := by
  simp only [sessionCall] at hp
  simp [app_post_chatkit_session, hparse, create_chatkit_session, hc, hp,
    sessionCall]

/-- The client is constructed exactly when the key is present and non-empty. -/
theorem get_openai_client_ok (env : Env) (k : String)
    (hk : env "OPENAI_API_KEY" = some k) (hk0 : k ≠ "") :
    get_openai_client env = Except.ok { api_key := k } := by
  simp [get_openai_client, os_getenv, hk, hk0]

/-- The client construction raises when the key is unset. -/
theorem get_openai_client_none (env : Env)
    (hk : env "OPENAI_API_KEY" = none) :
    get_openai_client env = Except.error missingKeyMsg := by
  simp [get_openai_client, os_getenv, hk]

/-- The client construction raises when the key is the empty string. -/
theorem get_openai_client_empty (env : Env)
    (hk : env "OPENAI_API_KEY" = some "") :
    get_openai_client env = Except.error missingKeyMsg := by
  simp [get_openai_client, os_getenv, hk]

/-- The pipeline result depends on the environment only through the client
construction. -/
theorem app_congr_client (env env' : Env) (provider : Provider) (body : Json)
    (h : get_openai_client env = get_openai_client env') :
    app_post_chatkit_session env provider body =
      app_post_chatkit_session env' provider body := by
  simp only [app_post_chatkit_session, create_chatkit_session, h]

/-! ## Cross-origin configuration -/

/-- The configuration fields passed to `app.add_middleware(CORSMiddleware,
...)`. -/
structure CORSMiddlewareConfig where
  allow_origins : List String
  allow_credentials : Bool
  allow_methods : List String
  allow_headers : List String
deriving DecidableEq

/-- The CORS configuration installed on the application:
`allow_origins=["*"], allow_credentials=True, allow_methods=["*"],
allow_headers=["*"]`. -/
def corsConfig : CORSMiddlewareConfig :=
  { allow_origins := ["*"]
    allow_credentials := true
    allow_methods := ["*"]
    allow_headers := ["*"] }

/-- Modelled from the spec: whether a configured allow-list permits a value —
the middleware itself is library code not in the repository.  A `"*"` entry
permits any value; otherwise the value must be listed. -/
def allowsValue (allowed : List String) (v : String) : Bool :=
  allowed.contains "*" || allowed.contains v

/-- Modelled from the spec: a cross-origin preflight (OPTIONS) request
succeeds exactly when the configured lists permit the request's origin,
method, and every requested header. -/
def preflightOk (cfg : CORSMiddlewareConfig) (origin method : String)
    (reqHeaders : List String) : Bool :=
  allowsValue cfg.allow_origins origin && allowsValue cfg.allow_methods method
    && reqHeaders.all (fun h => allowsValue cfg.allow_headers h)

/-! ## Trace shape -/

/-- Every provider call recorded in any run's trace carries the fixed workflow
identifier. -/
theorem trace_call_fixed_workflow (env : Env) (provider : Provider) (body : Json)
    (c : ProviderCall)
    (h : Event.providerCall c ∈ (app_post_chatkit_session env provider body).2) :
    c.params.workflow.id = workflow_id := by
  cases hparse : parseSessionRequest body with
  | error e =>
    rw [app_parse_error env provider body e hparse] at h
    simp at h
  | ok req =>
    cases hc : get_openai_client env with
    | error e =>
      rw [app_client_error env provider body req e hparse hc] at h
      simp at h
    | ok client =>
      obtain ⟨k⟩ := client
      cases hp : provider (sessionCall k req.deviceId) with
      | error e =>
        rw [app_provider_error env provider body req k e hparse hc hp] at h
        simp at h
        subst h
        rfl
      | ok session =>
        obtain ⟨s, extra⟩ := session
        rw [app_success env provider body req k s extra hparse hc hp] at h
        simp at h
        subst h
        rfl

/-! ## Claims -/

/-- C1: for a request body `{"deviceId": d}` with `d` a non-empty string, a
configured provider credential, and a provider call that succeeds with a
session whose client secret is `s`, the endpoint responds with exactly
`{"client_secret": s}`, and the single outbound call carries `user = d`
together with the fixed workflow identifier. -/
theorem C1_relay_success (env : Env) (provider : Provider) (d k s : String)
    (extra : List (String × String))
    (hd : d ≠ "") (hk : env "OPENAI_API_KEY" = some k) (hk0 : k ≠ "")
    (hp : provider (sessionCall k d)
          = Except.ok { client_secret := s, other_fields := extra }) :
    app_post_chatkit_session env provider (Json.obj [("deviceId", Json.str d)]) =
      (HttpResponse.ok (Json.obj [("client_secret", Json.str s)]),
       [Event.envRead "OPENAI_API_KEY", Event.providerCall (sessionCall k d)]) ∧
    (sessionCall k d).params.user = d ∧
    (sessionCall k d).params.workflow.id = workflow_id := by
  refine ⟨?_, rfl, rfl⟩
  exact app_success env provider _ { deviceId := d } k s extra
    (by simp [parseSessionRequest, jsonLookup, lookupField])
    (get_openai_client_ok env k hk hk0) hp

/-- Concrete instantiation of C1 at `deviceId "device-123"`, key `"sk-test"`,
secret `"cs_abc"`. -/
theorem C1_relay_success_witness :
    app_post_chatkit_session (fun _ => some "sk-test")
        (fun _ => Except.ok { client_secret := "cs_abc", other_fields := [] })
        (Json.obj [("deviceId", Json.str "device-123")]) =
      (HttpResponse.ok (Json.obj [("client_secret", Json.str "cs_abc")]),
       [Event.envRead "OPENAI_API_KEY",
        Event.providerCall (sessionCall "sk-test" "device-123")]) ∧
    (sessionCall "sk-test" "device-123").params.user = "device-123" ∧
    (sessionCall "sk-test" "device-123").params.workflow.id = workflow_id :=
  C1_relay_success (fun _ => some "sk-test")
    (fun _ => Except.ok { client_secret := "cs_abc", other_fields := [] })
    "device-123" "sk-test" "cs_abc" [] (by decide) rfl (by decide) rfl

/-- C2: with no credential in the environment, no provider call is made for
any request body, and every body that passes validation yields a server-side
error. -/
theorem C2_missing_credential (env : Env) (provider : Provider)
    (hk : env "OPENAI_API_KEY" = none) :
    (∀ body, providerCalls (app_post_chatkit_session env provider body).2 = []) ∧
    (∀ body req, parseSessionRequest body = Except.ok req →
      isServerError (app_post_chatkit_session env provider body).1 = true) := by
  have hc := get_openai_client_none env hk
  constructor
  · intro body
    cases hparse : parseSessionRequest body with
    | error e => rw [app_parse_error env provider body e hparse]; rfl
    | ok req => rw [app_client_error env provider body req _ hparse hc]; rfl
  · intro body req hparse
    rw [app_client_error env provider body req _ hparse hc]
    rfl

/-- Concrete instantiation of C2 with the variable unset and a valid body. -/
theorem C2_missing_credential_witness :
    providerCalls (app_post_chatkit_session (fun _ => none)
        (fun _ => Except.ok { client_secret := "cs", other_fields := [] })
        (Json.obj [("deviceId", Json.str "d1")])).2 = [] ∧
    isServerError (app_post_chatkit_session (fun _ => none)
        (fun _ => Except.ok { client_secret := "cs", other_fields := [] })
        (Json.obj [("deviceId", Json.str "d1")])).1 = true :=
  ⟨(C2_missing_credential (fun _ => none)
      (fun _ => Except.ok { client_secret := "cs", other_fields := [] }) rfl).1 _,
   (C2_missing_credential (fun _ => none)
      (fun _ => Except.ok { client_secret := "cs", other_fields := [] }) rfl).2
     _ { deviceId := "d1" } rfl⟩

/-- C3: a body whose `deviceId` field is missing or not a string is rejected
by validation with a client-side error, and no provider call is made. -/
theorem C3_validation_rejects (env : Env) (provider : Provider) (body : Json)
    (h : ∀ s, jsonLookup body "deviceId" ≠ some (Json.str s)) :
    isClientError (app_post_chatkit_session env provider body).1 = true ∧
    providerCalls (app_post_chatkit_session env provider body).2 = [] := by
  have hparse : ∃ e, parseSessionRequest body = Except.error e := by
    unfold parseSessionRequest
    cases hj : jsonLookup body "deviceId" with
    | none => exact ⟨_, rfl⟩
    | some v =>
      cases v with
      | str s => exact absurd hj (h s)
      | null => exact ⟨_, rfl⟩
      | bool b => exact ⟨_, rfl⟩
      | num n => exact ⟨_, rfl⟩
      | arr xs => exact ⟨_, rfl⟩
      | obj fs => exact ⟨_, rfl⟩
  obtain ⟨e, he⟩ := hparse
  rw [app_parse_error env provider body e he]
  exact ⟨rfl, rfl⟩

/-- Concrete instantiation of C3 at the non-string body
`{"deviceId": 5}`. -/
theorem C3_validation_rejects_witness :
    isClientError (app_post_chatkit_session (fun _ => some "sk-test")
        (fun _ => Except.ok { client_secret := "cs", other_fields := [] })
        (Json.obj [("deviceId", Json.num 5)])).1 = true ∧
    providerCalls (app_post_chatkit_session (fun _ => some "sk-test")
        (fun _ => Except.ok { client_secret := "cs", other_fields := [] })
        (Json.obj [("deviceId", Json.num 5)])).2 = [] :=
  C3_validation_rejects (fun _ => some "sk-test")
    (fun _ => Except.ok { client_secret := "cs", other_fields := [] })
    (Json.obj [("deviceId", Json.num 5)])
    (fun s hs => by simp [jsonLookup, lookupField] at hs)

/-- C4: when the provider call raises, the error propagates to the caller as
a server-side failure, the response carries no `client_secret` field, and
exactly one provider call was made (no retry, no fallback). -/
theorem C4_provider_error_propagates (env : Env) (provider : Provider)
    (body : Json) (req : SessionRequest) (k e : String)
    (hparse : parseSessionRequest body = Except.ok req)
    (hk : env "OPENAI_API_KEY" = some k) (hk0 : k ≠ "")
    (hp : provider (sessionCall k req.deviceId) = Except.error e) :
    isServerError (app_post_chatkit_session env provider body).1 = true ∧
    responseHasClientSecret (app_post_chatkit_session env provider body).1 = false ∧
    providerCalls (app_post_chatkit_session env provider body).2 =
      [sessionCall k req.deviceId] := by
  rw [app_provider_error env provider body req k e hparse
    (get_openai_client_ok env k hk hk0) hp]
  exact ⟨rfl, rfl, rfl⟩

/-- Concrete instantiation of C4 with a provider that raises `"boom"`. -/
theorem C4_provider_error_propagates_witness :
    isServerError (app_post_chatkit_session (fun _ => some "sk-test")
        (fun _ => Except.error "boom")
        (Json.obj [("deviceId", Json.str "d1")])).1 = true ∧
    responseHasClientSecret (app_post_chatkit_session (fun _ => some "sk-test")
        (fun _ => Except.error "boom")
        (Json.obj [("deviceId", Json.str "d1")])).1 = false ∧
    providerCalls (app_post_chatkit_session (fun _ => some "sk-test")
        (fun _ => Except.error "boom")
        (Json.obj [("deviceId", Json.str "d1")])).2 =
      [sessionCall "sk-test" "d1"] :=
  C4_provider_error_propagates (fun _ => some "sk-test")
    (fun _ => Except.error "boom") (Json.obj [("deviceId", Json.str "d1")])
    { deviceId := "d1" } "sk-test" "boom" rfl rfl (by decide) rfl

/-- C5: across any pair of runs — any environments, providers, and request
bodies — every outbound provider call carries the same fixed workflow
identifier, so the workflow field is independent of the caller-supplied
`deviceId`. -/
theorem C5_workflow_independent_of_request (env₁ env₂ : Env)
    (provider₁ provider₂ : Provider) (body₁ body₂ : Json)
    (c₁ c₂ : ProviderCall)
    (h₁ : Event.providerCall c₁ ∈ (app_post_chatkit_session env₁ provider₁ body₁).2)
    (h₂ : Event.providerCall c₂ ∈ (app_post_chatkit_session env₂ provider₂ body₂).2) :
    c₁.params.workflow.id = c₂.params.workflow.id ∧
    c₁.params.workflow.id = workflow_id :=
  ⟨(trace_call_fixed_workflow env₁ provider₁ body₁ c₁ h₁).trans
     (trace_call_fixed_workflow env₂ provider₂ body₂ c₂ h₂).symm,
   trace_call_fixed_workflow env₁ provider₁ body₁ c₁ h₁⟩

/-- Concrete instantiation of C5 on two runs with distinct device
identifiers. -/
theorem C5_workflow_independent_of_request_witness :
    (sessionCall "sk" "a").params.workflow.id =
      (sessionCall "sk" "b").params.workflow.id ∧
    (sessionCall "sk" "a").params.workflow.id = workflow_id :=
  C5_workflow_independent_of_request (fun _ => some "sk") (fun _ => some "sk")
    (fun _ => Except.ok { client_secret := "cs", other_fields := [] })
    (fun _ => Except.ok { client_secret := "cs", other_fields := [] })
    (Json.obj [("deviceId", Json.str "a")])
    (Json.obj [("deviceId", Json.str "b")])
    (sessionCall "sk" "a") (sessionCall "sk" "b")
    (by decide) (by decide)

/-- C6: every successful invocation performs exactly one outbound provider
call, and its full effect trace is one environment read followed by that one
call — no other effect, in particular no caching or persistence, occurs. -/
theorem C6_single_call_on_success (env : Env) (provider : Provider) (body : Json)
    (hok : isOk (app_post_chatkit_session env provider body).1 = true) :
    ∃ c, (app_post_chatkit_session env provider body).2 =
        [Event.envRead "OPENAI_API_KEY", Event.providerCall c] ∧
      providerCalls (app_post_chatkit_session env provider body).2 = [c] := by
  cases hparse : parseSessionRequest body with
  | error e =>
    rw [app_parse_error env provider body e hparse] at hok
    simp [isOk] at hok
  | ok req =>
    cases hc : get_openai_client env with
    | error e =>
      rw [app_client_error env provider body req e hparse hc] at hok
      simp [isOk] at hok
    | ok client =>
      obtain ⟨k⟩ := client
      cases hp : provider (sessionCall k req.deviceId) with
      | error e =>
        rw [app_provider_error env provider body req k e hparse hc hp] at hok
        simp [isOk] at hok
      | ok session =>
        obtain ⟨s, extra⟩ := session
        rw [app_success env provider body req k s extra hparse hc hp]
        exact ⟨sessionCall k req.deviceId, rfl, rfl⟩

/-- Concrete instantiation of C6 on a successful run. -/
theorem C6_single_call_on_success_witness :
    ∃ c, (app_post_chatkit_session (fun _ => some "sk")
          (fun _ => Except.ok { client_secret := "cs", other_fields := [] })
          (Json.obj [("deviceId", Json.str "d1")])).2 =
        [Event.envRead "OPENAI_API_KEY", Event.providerCall c] ∧
      providerCalls (app_post_chatkit_session (fun _ => some "sk")
          (fun _ => Except.ok { client_secret := "cs", other_fields := [] })
          (Json.obj [("deviceId", Json.str "d1")])).2 = [c] :=
  C6_single_call_on_success (fun _ => some "sk")
    (fun _ => Except.ok { client_secret := "cs", other_fields := [] })
    (Json.obj [("deviceId", Json.str "d1")]) rfl

/-- C7: for every request that reaches the handler, the trace records exactly
one environment read, of `OPENAI_API_KEY`, performed at request time inside
the handler; and the whole pipeline's behaviour depends on the environment
only through that one variable. -/
theorem C7_env_read_per_request (env env₂ : Env) (provider : Provider)
    (body : Json) :
    (∀ req, parseSessionRequest body = Except.ok req →
      envReads (app_post_chatkit_session env provider body).2 =
        ["OPENAI_API_KEY"]) ∧
    (env "OPENAI_API_KEY" = env₂ "OPENAI_API_KEY" →
      app_post_chatkit_session env provider body =
        app_post_chatkit_session env₂ provider body) := by
  constructor
  · intro req hparse
    cases hc : get_openai_client env with
    | error e =>
      rw [app_client_error env provider body req e hparse hc]; rfl
    | ok client =>
      obtain ⟨k⟩ := client
      cases hp : provider (sessionCall k req.deviceId) with
      | error e =>
        rw [app_provider_error env provider body req k e hparse hc hp]; rfl
      | ok session =>
        obtain ⟨s, extra⟩ := session
        rw [app_success env provider body req k s extra hparse hc hp]; rfl
  · intro hagree
    apply app_congr_client
    simp [get_openai_client, os_getenv, hagree]

/-- Concrete instantiation of C7: one read of `OPENAI_API_KEY` on a valid
request, and agreement on that single variable determines the outcome. -/
theorem C7_env_read_per_request_witness :
    envReads (app_post_chatkit_session (fun _ => some "sk")
        (fun _ => Except.ok { client_secret := "cs", other_fields := [] })
        (Json.obj [("deviceId", Json.str "d1")])).2 = ["OPENAI_API_KEY"] ∧
    app_post_chatkit_session (fun _ => some "sk")
        (fun _ => Except.ok { client_secret := "cs", other_fields := [] })
        (Json.obj [("deviceId", Json.str "d1")]) =
      app_post_chatkit_session
        (fun n => if n = "OPENAI_API_KEY" then some "sk" else none)
        (fun _ => Except.ok { client_secret := "cs", other_fields := [] })
        (Json.obj [("deviceId", Json.str "d1")]) :=
  ⟨(C7_env_read_per_request (fun _ => some "sk")
      (fun n => if n = "OPENAI_API_KEY" then some "sk" else none)
      (fun _ => Except.ok { client_secret := "cs", other_fields := [] })
      (Json.obj [("deviceId", Json.str "d1")])).1 { deviceId := "d1" } rfl,
   (C7_env_read_per_request (fun _ => some "sk")
      (fun n => if n = "OPENAI_API_KEY" then some "sk" else none)
      (fun _ => Except.ok { client_secret := "cs", other_fields := [] })
      (Json.obj [("deviceId", Json.str "d1")])).2 (by decide)⟩

/-- C8: under the installed CORS configuration, every cross-origin preflight
request is granted — any origin, any method, any set of request headers —
and credentials mode is enabled. -/
theorem C8_cors_preflight (origin method : String) (reqHeaders : List String) :
    preflightOk corsConfig origin method reqHeaders = true ∧
    corsConfig.allow_credentials = true := by
  refine ⟨?_, rfl⟩
  simp [preflightOk, corsConfig, allowsValue]

/-- C9: an empty-string credential behaves exactly like an unset one — the
whole pipeline's outcome is identical, no provider call is made, and every
body that reaches the handler yields the configuration server error. -/
theorem C9_empty_key_equals_unset (env envU : Env) (provider : Provider)
    (body : Json)
    (hk : env "OPENAI_API_KEY" = some "") (hkU : envU "OPENAI_API_KEY" = none) :
    app_post_chatkit_session env provider body =
      app_post_chatkit_session envU provider body ∧
    providerCalls (app_post_chatkit_session env provider body).2 = [] ∧
    (∀ req, parseSessionRequest body = Except.ok req →
      isServerError (app_post_chatkit_session env provider body).1 = true) := by
  have hc := get_openai_client_empty env hk
  have hcU := get_openai_client_none envU hkU
  refine ⟨app_congr_client env envU provider body (hc.trans hcU.symm), ?_, ?_⟩
  · cases hparse : parseSessionRequest body with
    | error e => rw [app_parse_error env provider body e hparse]; rfl
    | ok req => rw [app_client_error env provider body req _ hparse hc]; rfl
  · intro req hparse
    rw [app_client_error env provider body req _ hparse hc]
    rfl

/-- Concrete instantiation of C9 comparing `OPENAI_API_KEY=""` with the
variable unset. -/
theorem C9_empty_key_equals_unset_witness :
    app_post_chatkit_session (fun _ => some "")
        (fun _ => Except.ok { client_secret := "cs", other_fields := [] })
        (Json.obj [("deviceId", Json.str "d1")]) =
      app_post_chatkit_session (fun _ => none)
        (fun _ => Except.ok { client_secret := "cs", other_fields := [] })
        (Json.obj [("deviceId", Json.str "d1")]) ∧
    providerCalls (app_post_chatkit_session (fun _ => some "")
        (fun _ => Except.ok { client_secret := "cs", other_fields := [] })
        (Json.obj [("deviceId", Json.str "d1")])).2 = [] ∧
    isServerError (app_post_chatkit_session (fun _ => some "")
        (fun _ => Except.ok { client_secret := "cs", other_fields := [] })
        (Json.obj [("deviceId", Json.str "d1")])).1 = true := by
  have h := C9_empty_key_equals_unset (fun _ => some "") (fun _ => none)
    (fun _ => Except.ok { client_secret := "cs", other_fields := [] })
    (Json.obj [("deviceId", Json.str "d1")]) rfl rfl
  exact ⟨h.1, h.2.1, h.2.2 { deviceId := "d1" } rfl⟩

/-- C10: the body `{"deviceId": ""}` passes validation (no non-emptiness
constraint), the outbound call carries `user = ""`, and on provider success
the caller receives the provider's client secret. -/
theorem C10_empty_deviceId_accepted (env : Env) (provider : Provider)
    (k s : String) (extra : List (String × String))
    (hk : env "OPENAI_API_KEY" = some k) (hk0 : k ≠ "")
    (hp : provider (sessionCall k "")
          = Except.ok { client_secret := s, other_fields := extra }) :
    parseSessionRequest (Json.obj [("deviceId", Json.str "")]) =
      Except.ok { deviceId := "" } ∧
    app_post_chatkit_session env provider (Json.obj [("deviceId", Json.str "")]) =
      (HttpResponse.ok (Json.obj [("client_secret", Json.str s)]),
       [Event.envRead "OPENAI_API_KEY", Event.providerCall (sessionCall k "")]) ∧
    (sessionCall k "").params.user = "" := by
  refine ⟨rfl, ?_, rfl⟩
  exact app_success env provider _ { deviceId := "" } k s extra rfl
    (get_openai_client_ok env k hk hk0) hp

/-- Concrete instantiation of C10 at an empty device identifier. -/
theorem C10_empty_deviceId_accepted_witness :
    parseSessionRequest (Json.obj [("deviceId", Json.str "")]) =
      Except.ok { deviceId := "" } ∧
    app_post_chatkit_session (fun _ => some "sk")
        (fun _ => Except.ok { client_secret := "cs_e", other_fields := [] })
        (Json.obj [("deviceId", Json.str "")]) =
      (HttpResponse.ok (Json.obj [("client_secret", Json.str "cs_e")]),
       [Event.envRead "OPENAI_API_KEY",
        Event.providerCall (sessionCall "sk" "")]) ∧
    (sessionCall "sk" "").params.user = "" :=
  C10_empty_deviceId_accepted (fun _ => some "sk")
    (fun _ => Except.ok { client_secret := "cs_e", other_fields := [] })
    "sk" "cs_e" [] rfl (by decide) rfl
